import Mathlib

/-!
Verification development for the Moody Telegram bot's weekly-report
lifecycle.  The Python sources are shallowly embedded: pure helpers become
Lean functions, stateful methods become explicit state-passing functions,
`datetime` values become proleptic-Gregorian ordinals over `Int` (mirroring
CPython's `datetime` module arithmetic), and wall-clock instants become
integer epoch seconds.  Outbound Telegram messages and admin-queue writes
are modelled as event lists returned alongside the new state, so that
"sends exactly one message" style properties are directly expressible.
-/

namespace Moody

/-- A calendar date `(year, month, day)`, the embedding of a Python
`datetime.date` / a parsed `"YYYY-MM-DD"` string.  Canonical date strings
are represented by their parsed value; equality of canonical strings
coincides with equality of `Ymd` values. -/
structure Ymd where
  year : Int
  month : Int
  day : Int
deriving DecidableEq, Repr

/-- Gregorian leap-year test, as in CPython `datetime._is_leap`. -/
def isLeap (y : Int) : Bool :=
  y % 4 == 0 && (y % 100 != 0 || y % 400 == 0)

/-- Days in a month of a non-leap year (CPython `_DAYS_IN_MONTH`). -/
def daysInMonthTable (m : Int) : Int :=
  if m = 2 then 28
  else if m = 4 ∨ m = 6 ∨ m = 9 ∨ m = 11 then 30
  else 31

/-- Days before the first of a month in a non-leap year
(CPython `_DAYS_BEFORE_MONTH`). -/
def daysBeforeMonthTable (m : Int) : Int :=
  if m = 1 then 0 else if m = 2 then 31 else if m = 3 then 59
  else if m = 4 then 90 else if m = 5 then 120 else if m = 6 then 151
  else if m = 7 then 181 else if m = 8 then 212 else if m = 9 then 243
  else if m = 10 then 273 else if m = 11 then 304 else 334

/-- Days before January 1 of `y` (CPython `_days_before_year`). -/
def daysBeforeYear (y : Int) : Int :=
  let z := y - 1
  365 * z + z.fdiv 4 - z.fdiv 100 + z.fdiv 400

/-- Proleptic-Gregorian ordinal of a date, day 1 = 0001-01-01
(CPython `_ymd2ord`). -/
def toOrdinal (d : Ymd) : Int :=
  daysBeforeYear d.year
    + daysBeforeMonthTable d.month
    + (if 2 < d.month ∧ isLeap d.year then 1 else 0)
    + d.day

/-- Inverse of `toOrdinal` (CPython `_ord2ymd`).  Used for the `monday -
timedelta(days)` arithmetic of `get_current_week_start` /
`get_previous_week_start`. -/
def fromOrdinal (n0 : Int) : Ymd :=
  let n := n0 - 1
  let n400 := n.fdiv 146097
  let n := n.fmod 146097
  let year0 := n400 * 400 + 1
  let n100 := n.fdiv 36524
  let n := n.fmod 36524
  let n4 := n.fdiv 1461
  let n := n.fmod 1461
  let n1 := n.fdiv 365
  let n := n.fmod 365
  let year := year0 + n100 * 100 + n4 * 4 + n1
  if n1 = 4 ∨ n100 = 4 then ⟨year - 1, 12, 31⟩
  else
    let leap : Bool := n1 == 3 && (n4 != 24 || n100 == 3)
    let month := (n + 50).fdiv 32
    let preceding :=
      daysBeforeMonthTable month + (if 2 < month ∧ leap then 1 else 0)
    if n < preceding then
      let month' := month - 1
      let preceding' :=
        preceding - (daysInMonthTable month' + (if month' = 2 ∧ leap then 1 else 0))
      ⟨year, month', n - preceding' + 1⟩
    else
      ⟨year, month, n - preceding + 1⟩

/-- Python `date.weekday()`: Monday = 0 … Sunday = 6. -/
def weekday (d : Ymd) : Int :=
  (toOrdinal d + 6).fmod 7

/-- Ordinal of the Monday that starts ISO week 1 of `year`
(CPython `_isoweek1monday`). -/
def isoweek1monday (year : Int) : Int :=
  let firstday := toOrdinal ⟨year, 1, 1⟩
  let firstweekday := (firstday + 6).fmod 7
  let week1monday := firstday - firstweekday
  if 3 < firstweekday then week1monday + 7 else week1monday

/-- CPython `date.isocalendar()`: `(iso_year, iso_week, iso_weekday)`. -/
def isocalendar (d : Ymd) : Int × Int × Int :=
  let year := d.year
  let today := toOrdinal d
  let w1 := isoweek1monday year
  let week := (today - w1).fdiv 7
  let dayw := (today - w1).fmod 7
  if week < 0 then
    let year' := year - 1
    let w1' := isoweek1monday year'
    let week' := (today - w1').fdiv 7
    let dayw' := (today - w1').fmod 7
    (year', week' + 1, dayw' + 1)
  else if 52 ≤ week ∧ isoweek1monday (year + 1) ≤ today then
    (year + 1, 1, dayw + 1)
  else
    (year, week + 1, dayw + 1)

/-- The ISO year of a date, `isocalendar()[0]`. -/
def isoYear (d : Ymd) : Int := (isocalendar d).1

/-- The ISO week number of a date, `isocalendar()[1]`. -/
def isoWeek (d : Ymd) : Int := (isocalendar d).2.1

/-- Python `"{:02d}".format` for the small non-negative ints fed to it. -/
def pad2 (n : Int) : String :=
  if 0 ≤ n ∧ n < 10 then "0" ++ toString n else toString n

/-- The week key computed (identically) by
`data_handler_json.save_weekly_report` / `get_weekly_report` and
`data_handler_sqlite.save_weekly_report` / `get_weekly_report`:
`f"{week_date.year}_week_{week_date.isocalendar()[1]:02d}"`.
Note: the year component is the calendar year of the `week_start` date,
while the week component is the ISO week number. -/
def weekKey (d : Ymd) : String :=
  toString d.year ++ "_week_" ++ pad2 (isoWeek d)

example : weekday ⟨2024, 1, 1⟩ = 0 := by decide
example : weekday ⟨2024, 12, 30⟩ = 0 := by decide
example : isocalendar ⟨2024, 12, 30⟩ = (2025, 1, 1) := by decide
example : isocalendar ⟨2024, 1, 1⟩ = (2024, 1, 1) := by decide
example : isocalendar ⟨2023, 1, 1⟩ = (2022, 52, 7) := by decide
example : isocalendar ⟨2026, 12, 28⟩ = (2026, 53, 1) := by decide
example : fromOrdinal (toOrdinal ⟨2024, 3, 1⟩) = ⟨2024, 3, 1⟩ := by decide
example : fromOrdinal (toOrdinal ⟨2025, 10, 12⟩ - 7) = ⟨2025, 10, 5⟩ := by decide
example : weekKey ⟨2024, 12, 30⟩ = "2024_week_01" := by decide
example : weekKey ⟨2024, 1, 1⟩ = "2024_week_01" := by decide

/-- A check-in session as stored in the `responses` list / `sessions`
table.  `date` is the parsed `"YYYY-MM-DD"` string; `none` models a
missing or empty (falsy) date.  `timestamp` keeps the raw ISO string,
`responses` is the question-id → answer dictionary as an association
list with unique keys. -/
structure Session where
  userId : Int
  sessionType : String
  date : Option Ymd
  timestamp : String
  responses : List (String × String)
deriving DecidableEq, Repr

/-- A stored weekly report row (`report_entry` in
`data_handler_json.save_weekly_report`, the `weekly_reports` row in the
SQLite handler). -/
structure ReportEntry where
  weekStart : Ymd
  weekEnd : Ymd
  generatedAt : Int
  reportContent : String
  inputData : String
  dataDaysCount : Nat
  weekNumber : Int
  year : Int
  llmModel : String
  generationAttempts : Nat
deriving DecidableEq, Repr

/-- A failure-ledger entry (`failure_entry` in
`save_failed_report_attempt` / a `failed_reports` row).  Times are epoch
seconds; ISO-string comparison on well-formed timestamps coincides with
integer comparison. -/
structure FailureRecord where
  userId : Int
  weekStart : Ymd
  error : String
  model : String
  retryScheduled : Option Int
  createdAt : Int
deriving DecidableEq, Repr

/-- An `admin_notifications` row.  `day` is `DATE(created_at)` as a day
index (epoch seconds divided by 86400). -/
structure AdminNotification where
  ntype : String
  nuser : Option Int
  message : String
  day : Int
deriving DecidableEq, Repr

/-- The persistent store: check-in sessions, weekly reports keyed by
`(user_id, week_key)` (at most one row per key, enforced by dict
assignment / `INSERT OR REPLACE`), the failure ledger, the admin
notification table, and user preferences.  The JSON handler's
per-user nesting (`failed_reports[user] -> list`,
`weekly_reports[user][week_key]`) is represented flattened; the record
multisets are identical.  Preference rows are carried opaquely — no
claim inspects their contents, only that they are untouched. -/
structure St where
  sessions : List Session
  reports : List (Int × String × ReportEntry)
  failedReports : List FailureRecord
  adminTable : List AdminNotification
  prefs : List (Int × String)
deriving DecidableEq, Repr

/-- `DATE(t)` of an epoch-seconds instant, as a day index. -/
def dayOf (t : Int) : Int := t.fdiv 86400

/-- `get_week_sessions(user_id, week_start)`: the user's sessions whose
date lies in `[week_start, week_start + 6]` (the SQLite handler's
`date BETWEEN ? AND ?` on canonical `"YYYY-MM-DD"` strings; for
well-formed dates the JSON handler's `strptime` range check agrees).
The `ORDER BY timestamp` sort is omitted — no verified property depends
on session order. -/
def getWeekSessions (st : St) (u : Int) (ws : Ymd) : List Session :=
  st.sessions.filter fun s =>
    s.userId == u &&
      (match s.date with
       | some d => decide (toOrdinal ws ≤ toOrdinal d) && decide (toOrdinal d ≤ toOrdinal ws + 6)
       | none => false)

/-- `save_weekly_report`: builds the report entry and stores it under
`(user_id, week_key)`, overwriting any previous row for that key
(dict assignment in the JSON handler, `INSERT OR REPLACE` in SQLite). -/
def saveWeeklyReport (st : St) (u : Int) (ws : Ymd) (content inputData : String)
    (daysCount : Nat) (llmModel : String) (now : Int) : St :=
  let key := weekKey ws
  let entry : ReportEntry :=
    { weekStart := ws
      weekEnd := fromOrdinal (toOrdinal ws + 6)
      generatedAt := now
      reportContent := content
      inputData := inputData
      dataDaysCount := daysCount
      weekNumber := isoWeek ws
      year := ws.year
      llmModel := llmModel
      generationAttempts := 1 }
  { st with reports := st.reports.filter (fun r => !(r.1 == u && r.2.1 == key)) ++ [(u, key, entry)] }

/-- `get_weekly_report`: look up the report stored under the week key
derived from `week_start`. -/
def getWeeklyReport (st : St) (u : Int) (ws : Ymd) : Option ReportEntry :=
  ((st.reports.filter (fun r => r.1 == u && r.2.1 == weekKey ws)).head?).map (·.2.2)

/-- `save_failed_report_attempt`: appends one failure record to the
ledger. -/
def saveFailedReportAttempt (st : St) (u : Int) (ws : Ymd) (errorMessage llmModel : String)
    (retryScheduled : Option Int) (now : Int) : St :=
  { st with failedReports :=
      st.failedReports ++ [⟨u, ws, errorMessage, llmModel, retryScheduled, now⟩] }

/-- `clear_failed_report_attempts(user_id, week_start)`: drop exactly the
records of that user for that week (the JSON handler's per-user list
comprehension keeping `week_start != week_start`, the SQLite handler's
`DELETE WHERE user_id = ? AND week_start = ?`). -/
def clearFailedReportAttempts (st : St) (u : Int) (ws : Ymd) : St :=
  { st with failedReports :=
      st.failedReports.filter fun f => !(f.userId == u && f.weekStart == ws) }

/-- Whether a failure record is due for retry at `now`:
`retry_scheduled` is non-null and `<= now`. -/
def isDue (f : FailureRecord) (now : Int) : Bool :=
  match f.retryScheduled with
  | some t => decide (t ≤ now)
  | none => false

/-- One entry of the list returned by `get_pending_report_retries`
(the `original_error` field is omitted — no claim inspects it). -/
structure PendingRetry where
  userId : Int
  weekStart : Ymd
  attempts : Nat
deriving DecidableEq, Repr

/-- The JSON handler's `get_pending_report_retries`: one output entry per
DUE failure record, whose `attempts` counts ALL of that user's records
for the same `week_start` (due or not).  The JSON handler iterates the
per-user dict; in the flattened representation the per-user count is the
count over the matching `(user, week)` pairs. -/
def getPendingJson (recs : List FailureRecord) (now : Int) : List PendingRetry :=
  (recs.filter (fun f => isDue f now)).map fun f =>
    ({ userId := f.userId, weekStart := f.weekStart,
       attempts := (recs.filter (fun g => g.userId == f.userId && g.weekStart == f.weekStart)).length } : PendingRetry)

/-- The SQLite handler's `get_pending_report_retries`:
`SELECT user_id, week_start, COUNT(*) FROM failed_reports WHERE
retry_scheduled IS NOT NULL AND retry_scheduled <= now GROUP BY user_id,
week_start` — one entry per due `(user, week_start)` group, whose
`attempts` counts only the DUE records of that group.  Row order of the
grouped result is unspecified and irrelevant to every claim. -/
def getPendingSqlite (recs : List FailureRecord) (now : Int) : List PendingRetry :=
  let due := recs.filter (fun f => isDue f now)
  ((due.map (fun f => (f.userId, f.weekStart))).dedup).map fun k =>
    ({ userId := k.1, weekStart := k.2,
       attempts := (due.filter (fun g => g.userId == k.1 && g.weekStart == k.2)).length } : PendingRetry)

/-- The active storage backend behind `data_handler.DataHandler`. -/
inductive Backend where
  | json
  | sqlite
deriving DecidableEq, Repr

/-- `get_pending_report_retries` as dispatched by the active backend. -/
def getPendingReportRetries : Backend → List FailureRecord → Int → List PendingRetry
  | .json, recs, now => getPendingJson recs now
  | .sqlite, recs, now => getPendingSqlite recs now

/-- Whether a `daily_summary` row exists for `today`
(`get_admin_notifications`: `COUNT(*) > 0` over today's
`daily_summary` rows, surfaced as `daily_notifications[today].sent`). -/
def adminSentToday (tbl : List AdminNotification) (today : Int) : Bool :=
  decide (0 < (tbl.filter (fun r => r.day == today && r.ntype == "daily_summary")).length)

/-- The `pending_issues` list of `get_admin_notifications`: non-summary
rows created yesterday or later (`DATE(created_at) >= DATE('now','-1
day')`); the `ORDER BY created_at DESC` is omitted (order-irrelevant). -/
def pendingAdminIssues (tbl : List AdminNotification) (today : Int) : List AdminNotification :=
  tbl.filter fun r => r.ntype != "daily_summary" && decide (today - 1 ≤ r.day)

/-- `AdminNotifier.should_notify_admin_today`: true iff no flush has been
recorded today. -/
def shouldNotifyAdminToday (tbl : List AdminNotification) (today : Int) : Bool :=
  !(adminSentToday tbl today)

/-- `mark_admin_notified_today`: insert today's `daily_summary` row, then
delete non-summary rows older than one day. -/
def markAdminNotifiedToday (tbl : List AdminNotification) (today : Int)
    (issuesCount : Nat) : List AdminNotification :=
  (tbl ++ [({ ntype := "daily_summary", nuser := none,
              message := s!"Daily summary sent with {issuesCount} issues",
              day := today } : AdminNotification)]).filter
    fun r => r.ntype == "daily_summary" || decide (today - 1 ≤ r.day)

/-- `clear_pending_admin_issues`: delete every non-summary row. -/
def clearPendingAdminIssues (tbl : List AdminNotification) : List AdminNotification :=
  tbl.filter fun r => r.ntype == "daily_summary"

/-- `add_admin_notification`: insert one row. -/
def addAdminNotification (tbl : List AdminNotification) (ntype : String)
    (nuser : Option Int) (message : String) (today : Int) : List AdminNotification :=
  tbl ++ [⟨ntype, nuser, message, today⟩]

/-- `AdminNotifier.send_daily_admin_summary`, returning (sent?, new
table, number of aggregated messages sent to the admin).  The aggregated
message body (grouping by type, 3 examples per type, overflow counts) is
abstracted to the message count — no claim inspects its text. -/
def sendDailyAdminSummary (tbl : List AdminNotification) (today : Int) :
    Bool × List AdminNotification × Nat :=
  if !(shouldNotifyAdminToday tbl today) then (false, tbl, 0)
  else
    let pending := pendingAdminIssues tbl today
    if pending.isEmpty then (false, tbl, 0)
    else
      let tbl1 := markAdminNotifiedToday tbl today pending.length
      let tbl2 := clearPendingAdminIssues tbl1
      (true, tbl2, 1)

/-- `AdminNotifier.notify_llm_failure`: enqueue an `llm_failure` issue,
then flush immediately if no summary went out today and at least 5
issues are pending.  Returns (new table, rows enqueued by this call,
aggregated admin messages sent by this call). -/
def notifyLlmFailure (tbl : List AdminNotification) (u : Int)
    (errorMessage modelName : String) (today : Int) :
    List AdminNotification × List AdminNotification × Nat :=
  let details := "Model: " ++ modelName ++ ", Error: " ++ errorMessage
  let issue : AdminNotification := ⟨"llm_failure", some u, details, today⟩
  let tbl1 := addAdminNotification tbl "llm_failure" (some u) details today
  if shouldNotifyAdminToday tbl1 today && decide (5 ≤ (pendingAdminIssues tbl1 today).length) then
    let r := sendDailyAdminSummary tbl1 today
    (r.2.1, [issue], r.2.2)
  else
    (tbl1, [issue], 0)

/-- `AIService.validate_data_sufficiency`: `(is_sufficient, days_count,
message)`.  `days_count` is the number of distinct truthy dates among
the sessions (a Python `set` of date strings). -/
def validateDataSufficiency (sessions : List Session) : Bool × Nat × String :=
  if sessions.isEmpty then (false, 0, "No data available for the past week.")
  else
    let daysCount := (((sessions.map (·.date)).filter (fun d => d != none)).dedup).length
    if daysCount < 3 then
      (false, daysCount,
        "Insufficient data: only " ++ toString daysCount ++ " day"
          ++ (if daysCount ≠ 1 then "s" else "")
          ++ " with entries. Need at least 3 days.")
    else
      (true, daysCount, "Sufficient data: " ++ toString daysCount ++ " days with entries.")

/-- `responses.get(key, "N/A")` over the answer dictionary. -/
def lookupResp (rs : List (String × String)) (k : String) : String :=
  match rs.find? (fun p => p.1 == k) with
  | some p => p.2
  | none => "N/A"

/-- Models `datetime.fromisoformat(timestamp).strftime("%H:%M")` with the
surrounding `try/except` that yields `"unknown"`: for a well-formed
`"YYYY-MM-DDTHH:MM:SS"` timestamp this is the fixed-width `HH:MM` slice;
too-short strings map to `"unknown"`. -/
def timeOfTimestamp (ts : String) : String :=
  if 16 ≤ ts.length then (ts.drop 11).take 5 else "unknown"

/-- Ordering of the per-day group keys: Python sorts the raw date-string
keys, where the empty (falsy) key sorts first and canonical
`"YYYY-MM-DD"` strings sort chronologically. -/
def dateKeyLe (a b : Option Ymd) : Bool :=
  match a, b with
  | none, _ => true
  | some _, none => false
  | some x, some y => decide (toOrdinal x ≤ toOrdinal y)

/-- Insertion step of the stable sort over (distinct) date keys. -/
def insertDateKey (a : Option Ymd) : List (Option Ymd) → List (Option Ymd)
  | [] => [a]
  | b :: bs => if dateKeyLe a b then a :: b :: bs else b :: insertDateKey a bs

/-- `sorted(sessions_by_date.keys())` on distinct date keys. -/
def sortDateKeys : List (Option Ymd) → List (Option Ymd)
  | [] => []
  | a :: rest => insertDateKey a (sortDateKeys rest)

/-- Canonical rendering of a date key (`strftime("%Y-%m-%d")`); the
missing/empty key renders as the empty string it came from. -/
def dateKeyStr : Option Ymd → String
  | none => ""
  | some d => toString d.year ++ "-" ++ pad2 d.month ++ "-" ++ pad2 d.day

/-- The last session of a given date and type, mirroring the
`sessions_by_date[date][session_type] = session` dict assignment where a
later list entry overwrites an earlier one. -/
def lastOfType (sessions : List Session) (d : Option Ymd) (ty : String) : Option Session :=
  (sessions.filter (fun s => s.date == d && s.sessionType == ty)).getLast?

/-- The `"Morning data, ..."` line of `format_session_data`. -/
def morningLine (s : Session) : String :=
  "Morning data, registered at " ++ timeOfTimestamp s.timestamp
    ++ " : energy level=" ++ lookupResp s.responses "energy_level"
    ++ ", mood=" ++ lookupResp s.responses "mood"
    ++ ", intention word for the day=\"" ++ lookupResp s.responses "intention" ++ "\""

/-- The `"Evening data, ..."` line of `format_session_data`, including the
legacy `"day": "word_X"` fallback for the day word. -/
def eveningLine (s : Session) : String :=
  let dayWord0 := lookupResp s.responses "day_word"
  let dayWord :=
    if dayWord0 == "N/A" then
      let dayValue := lookupResp s.responses "day"
      if dayValue != "N/A" && dayValue.startsWith "word_" then dayValue.drop 5 else dayWord0
    else dayWord0
  "Evening data, registered at " ++ timeOfTimestamp s.timestamp
    ++ ": mood=" ++ lookupResp s.responses "mood"
    ++ ", stress=" ++ lookupResp s.responses "stress_level"
    ++ ", word that describes this day best=\"" ++ dayWord
    ++ "\", one sentence describing what had the most impact on your mood today=\""
    ++ lookupResp s.responses "reflection" ++ "\""

/-- `AIService.format_session_data`: groups sessions by date, renders one
header plus optional morning/evening lines per date in date order, and
joins everything with newlines. -/
def formatSessionData (sessions : List Session) : String :=
  if sessions.isEmpty then "No data available for this period."
  else
    let keys := sortDateKeys ((sessions.map (·.date)).dedup)
    let lines := keys.foldr (fun d acc =>
      let header := "\n*Data for* " ++ dateKeyStr d
      let mLine :=
        match lastOfType sessions d "morning" with
        | some s => [morningLine s]
        | none => []
      let eLine :=
        match lastOfType sessions d "evening" with
        | some s => [eveningLine s]
        | none => []
      (header :: mLine ++ eLine) ++ acc) ([] : List String)
    String.intercalate "\n" lines

/-- Outcome of the raw OpenRouter chat-completion call inside
`AIService.generate_report`: the returned message content (Python `None`
content is the same falsy case as `""` and is represented by `""`), or
one of the three caught exception classes. -/
inductive ApiResult where
  | ok (content : String)
  | timeout (e : String)
  | apiError (e : String)
  | unexpected (e : String)
deriving DecidableEq, Repr

/-- The `metadata` dict of `AIService.generate_report`. -/
structure GenMetadata where
  modelUsed : String
  errorType : Option String
  reportLength : Option Nat
deriving DecidableEq, Repr

/-- `AIService.model` (the `OPENROUTER_MODEL` default). -/
def aiModel : String := "openai/gpt-5"

/-- Python `str.strip()` for whitespace: drop whitespace characters from
both ends. -/
def pyStrip (s : String) : String :=
  String.mk (((s.data.dropWhile Char.isWhitespace).reverse.dropWhile Char.isWhitespace).reverse)

/-- `AIService.generate_report` given the raw call outcome: classifies
empty or under-50-characters-stripped content as the synthetic
`insufficient_content` failure, strips successful content, and tags the
three exception classes `timeout` / `api_error` / `unknown`. -/
def generateReport (api : ApiResult) : Bool × String × GenMetadata :=
  match api with
  | .ok content =>
    if content == "" || decide ((pyStrip content).length < 50) then
      (false, "Generated report was too short or empty.",
        ⟨aiModel, some "insufficient_content", none⟩)
    else
      (true, pyStrip content, ⟨aiModel, none, some content.length⟩)
  | .timeout e =>
      (false, "LLM request timeout: " ++ e, ⟨aiModel, some "timeout", none⟩)
  | .apiError e =>
      (false, "LLM API error: " ++ e, ⟨aiModel, some "api_error", none⟩)
  | .unexpected e =>
      (false, "Failed to generate AI report: " ++ e, ⟨aiModel, some "unknown", none⟩)

/-- An outbound Telegram message of the report lifecycle, tagged by kind
and target: the "we'll retry" failure notice of
`_notify_user_of_failure`, the "success after retry" notice of
`_notify_user_retry_success`, and the terminal "gave up" notice of
`_notify_user_max_retries`.  Message bodies are fixed templates of
`(user, week_start)` and are abstracted to their tag. -/
inductive UserMsg where
  | retryScheduled (userId : Int) (weekStart : Ymd)
  | retrySuccess (userId : Int) (weekStart : Ymd)
  | maxRetries (userId : Int) (weekStart : Ymd)
deriving DecidableEq, Repr

/-- Result of one `ReportManager.generate_weekly_report` call: success
flag, report content or error message, the new store state, the user
messages sent, the admin issues enqueued, and the number of aggregated
admin summaries flushed during the call. -/
structure GenResult where
  success : Bool
  payload : String
  state : St
  userMsgs : List UserMsg
  enqueued : List AdminNotification
  adminMsgs : Nat
deriving DecidableEq, Repr

/-- `ReportManager._handle_report_generation_failure`: schedule a retry
at `now + 2 days`, append the failure record, notify the user (when the
bot application is wired), and forward the failure to the admin
escalation queue (also gated on the bot application, as in the source).
Returns (new state, user messages, enqueued admin issues, admin
summaries flushed). -/
def handleReportGenerationFailure (st : St) (u : Int) (ws : Ymd)
    (errorMessage modelName errorType : String) (now : Int) (botApp : Bool) :
    St × List UserMsg × List AdminNotification × Nat :=
  let retryScheduled := now + 2 * 86400
  let st1 := saveFailedReportAttempt st u ws errorMessage modelName (some retryScheduled) now
  let userMsgs := if botApp then [UserMsg.retryScheduled u ws] else []
  if botApp then
    let r := notifyLlmFailure st1.adminTable u (errorType ++ ": " ++ errorMessage)
               modelName (dayOf now)
    ({ st1 with adminTable := r.1 }, userMsgs, r.2.1, r.2.2)
  else
    (st1, userMsgs, [], 0)

/-- `ReportManager.generate_weekly_report(user_id, week_start, is_retry)`.
The network call to the narrative service is abstracted by the
`ApiResult` oracle (its inputs — the formatted week data and the
prior-report context — have no effect on the store).  On AI failure with
`is_retry=False` the failure handler runs; with `is_retry=True` nothing
is rescheduled.  On success the report is saved (overwriting the week
key) and the failure ledger is cleared for `(user, week_start)`. -/
def generateWeeklyReport (st : St) (u : Int) (ws : Ymd) (isRetry : Bool)
    (api : ApiResult) (now : Int) (botApp : Bool) : GenResult :=
  let sessions := getWeekSessions st u ws
  let v := validateDataSufficiency sessions
  if !v.1 then ⟨false, v.2.2, st, [], [], 0⟩
  else
    let formatted := formatSessionData sessions
    let g := generateReport api
    if !g.1 then
      if !isRetry then
        let h := handleReportGenerationFailure st u ws g.2.1 g.2.2.modelUsed
                   (g.2.2.errorType.getD "unknown") now botApp
        ⟨false, g.2.1, h.1, h.2.1, h.2.2.1, h.2.2.2⟩
      else
        ⟨false, g.2.1, st, [], [], 0⟩
    else
      let st1 := saveWeeklyReport st u ws g.2.1 formatted v.2.1 g.2.2.modelUsed now
      let st2 := clearFailedReportAttempts st1 u ws
      ⟨true, g.2.1, st2, [], [], 0⟩

/-- `ReportManager.get_current_week_start`: the Monday of the week of
`today` (`today - timedelta(days=today.weekday())`). -/
def getCurrentWeekStart (today : Ymd) : Ymd :=
  fromOrdinal (toOrdinal today - weekday today)

/-- `ReportManager.get_previous_week_start`: one week before the current
week's Monday. -/
def getPreviousWeekStart (today : Ymd) : Ymd :=
  fromOrdinal (toOrdinal (getCurrentWeekStart today) - 7)

/-- `ReportManager.should_generate_report`: not eligible when last week's
report already exists or the week's data is insufficient; otherwise
eligible with the day count in the reason. -/
def shouldGenerateReport (st : St) (u : Int) (today : Ymd) : Bool × String × Ymd :=
  let prev := getPreviousWeekStart today
  match getWeeklyReport st u prev with
  | some _ => (false, "Report already exists for previous week", prev)
  | none =>
    let v := validateDataSufficiency (getWeekSessions st u prev)
    if !v.1 then (false, v.2.2, prev)
    else (true, "Ready to generate report (" ++ toString v.2.1 ++ " days of data)", prev)

/-- Result of one `ReportManager.process_pending_retries` sweep: the new
state, the `(user, week_start)` keys for which `generate_weekly_report`
was invoked, the user messages sent, and admin side effects. -/
structure SweepResult where
  state : St
  invoked : List (Int × Ymd)
  userMsgs : List UserMsg
  enqueued : List AdminNotification
  adminMsgs : Nat
deriving DecidableEq, Repr

/-- The loop body of `process_pending_retries` over the pending list:
skip groups at the 3-attempt cap, otherwise retry with `is_retry=True`;
notify success, or — when this was at least the 3rd attempt — send the
terminal max-retries notice (both notices require the bot application). -/
def sweepGo (api : Int → Ymd → ApiResult) (now : Int) (botApp : Bool) :
    List PendingRetry → St → SweepResult
  | [], st => ⟨st, [], [], [], 0⟩
  | p :: rest, st =>
    if 3 ≤ p.attempts then sweepGo api now botApp rest st
    else
      let r := generateWeeklyReport st p.userId p.weekStart true (api p.userId p.weekStart) now botApp
      let here : List UserMsg :=
        if r.success then
          if botApp then [UserMsg.retrySuccess p.userId p.weekStart] else []
        else
          if 2 ≤ p.attempts then
            if botApp then [UserMsg.maxRetries p.userId p.weekStart] else []
          else []
      let tail := sweepGo api now botApp rest r.state
      ⟨tail.state, (p.userId, p.weekStart) :: tail.invoked,
        r.userMsgs ++ here ++ tail.userMsgs,
        r.enqueued ++ tail.enqueued, r.adminMsgs + tail.adminMsgs⟩

/-- `ReportManager.process_pending_retries`: fetch the due groups from
the active backend once, then process them in order. -/
def processPendingRetries (b : Backend) (st : St) (now : Int)
    (api : Int → Ymd → ApiResult) (botApp : Bool) : SweepResult :=
  sweepGo api now botApp (getPendingReportRetries b st.failedReports now) st

/-- The two reminder/session kinds a reminder job is registered for. -/
inductive SessionKind where
  | morning
  | evening
deriving DecidableEq, Repr

/-- The session-type string of a reminder kind. -/
def SessionKind.str : SessionKind → String
  | .morning => "morning"
  | .evening => "evening"

/-- `get_today_sessions(user_id)`: the `{morning, evening}` pair for
today, where a later stored session of the same type overwrites an
earlier one (dict assignment). -/
def getTodaySessions (st : St) (u : Int) (today : Ymd) : Option Session × Option Session :=
  st.sessions.foldl
    (fun acc s =>
      if s.userId == u && s.date == some today then
        if s.sessionType == "morning" then (some s, acc.2)
        else if s.sessionType == "evening" then (acc.1, some s)
        else acc
      else acc)
    (none, none)

/-- `today_sessions.get(reminder_type)` for the two reminder kinds. -/
def todaySessionOf (ts : Option Session × Option Session) : SessionKind → Option Session
  | .morning => ts.1
  | .evening => ts.2

/-- An outbound reminder message (body and keyboard abstracted). -/
inductive ReminderMsg where
  | reminder (userId : Int) (kind : SessionKind)
deriving DecidableEq, Repr

/-- `ReminderManager._send_reminder`, evaluated against the store state
at fire time: re-checks whether today's session of the matching type is
already recorded and suppresses the reminder if so; otherwise sends one
message through the reminder callback (when one is registered).  The
source wraps the body in a broad `try/except`, so the embedded function
is total: no error propagates. -/
def sendReminder (st : St) (u : Int) (kind : SessionKind) (today : Ymd)
    (callbackSet : Bool) : List ReminderMsg :=
  let ts := getTodaySessions st u today
  if (todaySessionOf ts kind).isSome then []
  else if callbackSet then [.reminder u kind] else []

/-! ### Derived counting functions and concrete fixtures -/

/-- Number of FailureRecords of `(u, w)` that are due for retry at
`now`. -/
def dueCount (recs : List FailureRecord) (now : Int) (u : Int) (w : Ymd) : Nat :=
  (recs.filter (fun f => (f.userId == u && f.weekStart == w) && isDue f now)).length

/-- Total number of FailureRecords stored for `(u, w)`, due or not. -/
def totalCount (recs : List FailureRecord) (u : Int) (w : Ymd) : Nat :=
  (recs.filter (fun g => g.userId == u && g.weekStart == w)).length

/-- Number of distinct calendar dates carrying at least one session of
either type (missing/empty dates carry none). -/
def distinctDates (sessions : List Session) : Nat :=
  (((sessions.map (·.date)).filter (fun d => d != none)).dedup).length

/-- The empty store. -/
def emptyStore : St := ⟨[], [], [], [], []⟩

/-- Fixture: the Monday 2025-01-06. -/
def wk1 : Ymd := ⟨2025, 1, 6⟩

/-- Fixture: a stored session. -/
def demoSession (u : Int) (ty : String) (d : Ymd) : Session :=
  { userId := u, sessionType := ty, date := some d,
    timestamp := "2025-01-06T08:30:00",
    responses := [("energy_level", "7"), ("mood", "good"), ("intention", "focus")] }

/-- Fixture: a store with three session days in the week of 2025-01-06
for user 7. -/
def demoStore : St :=
  { sessions := [demoSession 7 "morning" ⟨2025, 1, 6⟩,
                 demoSession 7 "evening" ⟨2025, 1, 7⟩,
                 demoSession 7 "morning" ⟨2025, 1, 8⟩],
    reports := [], failedReports := [], adminTable := [], prefs := [(7, "tz")] }

/-- Fixture: a 60-character narrative-service response. -/
def demoContent : String := String.mk (List.replicate 60 'x')

/-- Fixture: failure records for user 7, week 2025-01-06. -/
def demoFailure (e : String) (t : Int) : FailureRecord :=
  ⟨7, wk1, e, "m", some t, t⟩

/-- Fixture: ledger with two due records for (7, 2025-01-06). -/
def twoFailures : List FailureRecord := [demoFailure "e1" 10, demoFailure "e2" 20]

/-- Fixture: store whose ledger has three due records for
(7, 2025-01-06). -/
def threeFailureStore : St :=
  { emptyStore with failedReports :=
      [demoFailure "e1" 10, demoFailure "e2" 20, demoFailure "e3" 30] }

/-- Fixture: a store with three session days and two prior failure
records for (7, 2025-01-06). -/
def threeSessionFailStore : St :=
  { demoStore with failedReports := [demoFailure "e1" 10, demoFailure "e2" 20] }

/-! ### C1 -/

/-- Claim C1 (code bug): the week key is claimed to pair the ISO year
with the ISO week number, so that distinct Monday week starts never
collide.  The code pairs the CALENDAR year of `week_start` with the ISO
week number: for the Mondays 2024-12-30 (ISO year 2025, week 1) and
2024-01-01 (ISO year 2024, week 1) both handlers compute the same key
`"2024_week_01"`, and a report saved for the week of 2024-12-30 is
returned by a lookup for the week of 2024-01-01. -/
theorem weekKey_calendar_year_collision :
    weekday ⟨2024, 12, 30⟩ = 0 ∧ weekday ⟨2024, 1, 1⟩ = 0 ∧
    isoYear ⟨2024, 12, 30⟩ = 2025 ∧ isoYear ⟨2024, 1, 1⟩ = 2024 ∧
    (⟨2024, 12, 30⟩ : Ymd) ≠ ⟨2024, 1, 1⟩ ∧
    weekKey ⟨2024, 12, 30⟩ = "2024_week_01" ∧
    weekKey ⟨2024, 1, 1⟩ = "2024_week_01" ∧
    (getWeeklyReport (saveWeeklyReport emptyStore 1 ⟨2024, 12, 30⟩ "r" "i" 3 "m" 0)
        1 ⟨2024, 1, 1⟩).isSome = true := by
  decide

/-! ### C8 -/

/-- Claim C8: when a reminder fires and today's session of the matching
type is already recorded in the store at fire time, no outbound message
is sent (and, the body being wrapped in `try/except`, no error is
raised); the check runs against the fire-time store state. -/
theorem reminder_suppressed_when_completed (st : St) (u : Int) (kind : SessionKind)
    (today : Ymd) (cb : Bool)
    (h : (todaySessionOf (getTodaySessions st u today) kind).isSome = true) :
    sendReminder st u kind today cb = [] := by
  unfold sendReminder
  simp [h]

/-- Witness for C8: user 7's morning session for 2025-01-06 exists, so
the morning reminder fired on that day sends nothing. -/
theorem reminder_suppressed_when_completed_witness :
    sendReminder demoStore 7 .morning ⟨2025, 1, 6⟩ true = [] :=
  reminder_suppressed_when_completed demoStore 7 .morning ⟨2025, 1, 6⟩ true (by decide)

/-! ### C10 -/

/-- Claim C10: `clear_failed_report_attempts(user, week_start)` removes
exactly the failure records matching both the user and the week — every
other failure record keeps its multiplicity, and sessions, reports,
preferences and the admin table are untouched. -/
theorem clear_failed_attempts_frame (st : St) (u : Int) (ws : Ymd) :
    (∀ f : FailureRecord,
        (clearFailedReportAttempts st u ws).failedReports.count f =
          if f.userId = u ∧ f.weekStart = ws then 0 else st.failedReports.count f) ∧
    (clearFailedReportAttempts st u ws).sessions = st.sessions ∧
    (clearFailedReportAttempts st u ws).reports = st.reports ∧
    (clearFailedReportAttempts st u ws).prefs = st.prefs ∧
    (clearFailedReportAttempts st u ws).adminTable = st.adminTable := by
  refine ⟨fun f => ?_, rfl, rfl, rfl, rfl⟩
  by_cases h : f.userId = u ∧ f.weekStart = ws
  · rw [if_pos h, List.count_eq_zero]
    simp [clearFailedReportAttempts, List.mem_filter, h.1, h.2]
  · rw [if_neg h]
    apply List.count_filter
    simp only [beq_iff_eq, Bool.not_eq_true', Bool.and_eq_false_imp]
    rcases not_and_or.mp h with h1 | h1 <;> simp [h1]

/-! ### C9 -/

/-- Claim C9: once a flush is recorded for today, every further
`send_daily_admin_summary` call on the same day sends nothing and
returns `False` (leaving the store untouched); and a call that does send
marks today as flushed, clears the pending queue, and sends exactly one
aggregated message. -/
theorem admin_summary_once_per_day (tbl : List AdminNotification) (today : Int) :
    (adminSentToday tbl today = true →
        sendDailyAdminSummary tbl today = (false, tbl, 0)) ∧
    ((sendDailyAdminSummary tbl today).1 = true →
        adminSentToday (sendDailyAdminSummary tbl today).2.1 today = true ∧
        pendingAdminIssues (sendDailyAdminSummary tbl today).2.1 today = [] ∧
        (sendDailyAdminSummary tbl today).2.2 = 1) := by
  constructor
  · intro h
    unfold sendDailyAdminSummary shouldNotifyAdminToday
    simp [h]
  · intro hs
    by_cases h1 : shouldNotifyAdminToday tbl today
    · by_cases h2 : (pendingAdminIssues tbl today).isEmpty
      · exfalso
        unfold sendDailyAdminSummary at hs
        simp [h1, h2] at hs
      · have heq : sendDailyAdminSummary tbl today =
            (true,
             clearPendingAdminIssues
               (markAdminNotifiedToday tbl today (pendingAdminIssues tbl today).length),
             1) := by
          unfold sendDailyAdminSummary
          simp [h1, h2]
        rw [heq]
        refine ⟨?_, ?_, rfl⟩
        · have hrow :
              (⟨"daily_summary", none,
                s!"Daily summary sent with {(pendingAdminIssues tbl today).length} issues",
                today⟩ : AdminNotification) ∈
              clearPendingAdminIssues
                (markAdminNotifiedToday tbl today (pendingAdminIssues tbl today).length) := by
            unfold clearPendingAdminIssues markAdminNotifiedToday
            refine List.mem_filter.mpr ⟨List.mem_filter.mpr ⟨?_, by simp⟩, by simp⟩
            exact List.mem_append_right _ (List.mem_singleton.mpr rfl)
          unfold adminSentToday
          apply decide_eq_true
          exact List.length_pos_of_mem (List.mem_filter.mpr ⟨hrow, by simp⟩)
        · unfold pendingAdminIssues clearPendingAdminIssues
          rw [List.filter_filter]
          apply List.filter_eq_nil_iff.mpr
          intro a _
          by_cases ha : a.ntype = "daily_summary" <;> simp [ha, bne]
    · exfalso
      unfold sendDailyAdminSummary at hs
      simp [h1] at hs

/-- Witness for C9: a table with one pending issue flushes (sending one
message), after which a same-day call is a no-op; a table already
marked today refuses outright. -/
theorem admin_summary_once_per_day_witness :
    (sendDailyAdminSummary [⟨"llm_failure", some 7, "d", 100⟩] 100).2.2 = 1 ∧
    adminSentToday (sendDailyAdminSummary [⟨"llm_failure", some 7, "d", 100⟩] 100).2.1 100 = true ∧
    sendDailyAdminSummary [⟨"llm_failure", some 7, "d", 100⟩, ⟨"daily_summary", none, "s", 100⟩] 100 =
      (false, [⟨"llm_failure", some 7, "d", 100⟩, ⟨"daily_summary", none, "s", 100⟩], 0) := by
  refine ⟨((admin_summary_once_per_day [⟨"llm_failure", some 7, "d", 100⟩] 100).2 (by decide)).2.2,
          ((admin_summary_once_per_day [⟨"llm_failure", some 7, "d", 100⟩] 100).2 (by decide)).1,
          (admin_summary_once_per_day
            [⟨"llm_failure", some 7, "d", 100⟩, ⟨"daily_summary", none, "s", 100⟩] 100).1 (by decide)⟩

/-! ### C4 -/

/-- The sufficiency verdict is exactly the 3-distinct-dates threshold. -/
lemma validate_fst_iff (sessions : List Session) :
    (validateDataSufficiency sessions).1 = true ↔ 3 ≤ distinctDates sessions := by
  unfold validateDataSufficiency distinctDates
  rcases sessions with _ | ⟨s, rest⟩
  · simp
  · simp only [List.isEmpty_cons, Bool.false_eq_true, if_false]
    split
    · next h =>
      dsimp only
      constructor
      · intro hf; simp at hf
      · intro h3; exact absurd h3 (by omega)
    · next h =>
      dsimp only
      constructor
      · intro _; omega
      · intro _; rfl

/-- The returned day count is the number of distinct dates. -/
lemma validate_snd (sessions : List Session) :
    (validateDataSufficiency sessions).2.1 = distinctDates sessions := by
  unfold validateDataSufficiency distinctDates
  rcases sessions with _ | ⟨s, rest⟩
  · simp
  · simp only [List.isEmpty_cons, Bool.false_eq_true, if_false]
    split <;> rfl

/-- Fixture: only two distinct session dates. -/
def twoDaySessions : List Session :=
  [demoSession 7 "morning" ⟨2025, 1, 6⟩, demoSession 7 "evening" ⟨2025, 1, 7⟩]

/-- Claim C4 (amended): sufficiency — and hence eligibility in
`should_generate_report` when no report exists yet — is decided solely
by the number of distinct session dates: not sufficient for 0, 1 or 2
distinct dates and sufficient for 3 or more; for a NONEMPTY session
list the insufficiency message carries the count, while the empty list
gets the fixed no-data message (see the counterexample). -/
theorem sufficiency_is_distinct_date_threshold :
    (∀ sessions : List Session,
        ((validateDataSufficiency sessions).1 = true ↔ 3 ≤ distinctDates sessions) ∧
        (validateDataSufficiency sessions).2.1 = distinctDates sessions ∧
        (sessions ≠ [] → distinctDates sessions < 3 →
          List.IsInfix (toString (distinctDates sessions)).data
            (validateDataSufficiency sessions).2.2.data)) ∧
    (∀ (st : St) (u : Int) (today : Ymd),
        getWeeklyReport st u (getPreviousWeekStart today) = none →
        ((shouldGenerateReport st u today).1 = true ↔
          3 ≤ distinctDates (getWeekSessions st u (getPreviousWeekStart today)))) := by
  constructor
  · intro sessions
    refine ⟨validate_fst_iff sessions, validate_snd sessions, ?_⟩
    intro hne h3
    rcases sessions with _ | ⟨s, rest⟩
    · exact absurd rfl hne
    · have heq : validateDataSufficiency (s :: rest) =
          (false, distinctDates (s :: rest),
            "Insufficient data: only " ++ toString (distinctDates (s :: rest)) ++ " day"
              ++ (if distinctDates (s :: rest) ≠ 1 then "s" else "")
              ++ " with entries. Need at least 3 days.") := by
        unfold validateDataSufficiency distinctDates
        unfold distinctDates at h3
        simp only [List.isEmpty_cons, Bool.false_eq_true, if_false]
        rw [if_pos h3]
      rw [heq]
      exact ⟨"Insufficient data: only ".data,
        (" day" ++ (if distinctDates (s :: rest) ≠ 1 then "s" else "")
          ++ " with entries. Need at least 3 days.").data,
        by simp⟩
  · intro st u today hnone
    unfold shouldGenerateReport
    dsimp only
    rw [hnone]
    have hiff := validate_fst_iff (getWeekSessions st u (getPreviousWeekStart today))
    dsimp only
    split
    · next h =>
      dsimp only
      simp only [Bool.false_eq_true, false_iff]
      intro h3
      rw [← hiff] at h3
      rw [h3] at h
      simp at h
    · next h =>
      dsimp only
      exact iff_of_true rfl (hiff.mp (by simpa using h))

/-- Counterexample for C4: on the empty session list (0 distinct dates)
the message is the fixed no-data text, which does not contain the count
`0` — the claim's "with the count in its message" fails there. -/
theorem sufficiency_empty_message_no_count :
    validateDataSufficiency [] = (false, 0, "No data available for the past week.") ∧
    ¬ List.IsInfix (toString (0 : Nat)).data
        ("No data available for the past week.".data) := by
  exact ⟨rfl, by decide⟩

/-- Witness for C4: two distinct dates yield an insufficiency message
containing "2", and with three session days last week and no stored
report the eligibility check holds. -/
theorem sufficiency_is_distinct_date_threshold_witness :
    List.IsInfix (toString (distinctDates twoDaySessions)).data
      (validateDataSufficiency twoDaySessions).2.2.data ∧
    ((shouldGenerateReport demoStore 7 ⟨2025, 1, 15⟩).1 = true ↔
      3 ≤ distinctDates (getWeekSessions demoStore 7 (getPreviousWeekStart ⟨2025, 1, 15⟩))) :=
  ⟨(sufficiency_is_distinct_date_threshold.1 twoDaySessions).2.2 (by decide) (by decide),
   sufficiency_is_distinct_date_threshold.2 demoStore 7 ⟨2025, 1, 15⟩ (by decide)⟩

/-! ### C5, C6, C7 -/

/-- Filtering with `p` after keeping only the elements refuting `p`
leaves nothing. -/
lemma filter_not_filter_self {α : Type} (p : α → Bool) (l : List α) :
    (l.filter (fun a => !(p a))).filter p = [] := by
  rw [List.filter_filter]
  apply List.filter_eq_nil_iff.mpr
  intro a _
  cases hp : p a <;> simp [hp]

/-- The failure path of a first (non-retry) generation attempt with the
bot application wired: one appended failure record scheduled at
`now + 2 days`, one "we'll retry" user message, one enqueued admin
issue. -/
lemma generate_failure_path (st : St) (u : Int) (ws : Ymd) (api : ApiResult) (now : Int)
    (hsuff : (validateDataSufficiency (getWeekSessions st u ws)).1 = true)
    (hfail : (generateReport api).1 = false) :
    (generateWeeklyReport st u ws false api now true).success = false ∧
    (generateWeeklyReport st u ws false api now true).state.failedReports =
      st.failedReports ++
        [⟨u, ws, (generateReport api).2.1, (generateReport api).2.2.modelUsed,
          some (now + 2 * 86400), now⟩] ∧
    (generateWeeklyReport st u ws false api now true).userMsgs =
      [UserMsg.retryScheduled u ws] ∧
    (generateWeeklyReport st u ws false api now true).enqueued =
      [⟨"llm_failure", some u,
        "Model: " ++ (generateReport api).2.2.modelUsed ++ ", Error: "
          ++ ((generateReport api).2.2.errorType.getD "unknown" ++ ": "
            ++ (generateReport api).2.1), dayOf now⟩] := by
  have h1 : (!(validateDataSufficiency (getWeekSessions st u ws)).1) = false := by
    rw [hsuff]; rfl
  have h2 : (!(generateReport api).1) = true := by rw [hfail]; rfl
  unfold generateWeeklyReport
  dsimp only
  rw [h1, h2]
  simp only [Bool.false_eq_true, if_false, if_true]
  unfold handleReportGenerationFailure notifyLlmFailure addAdminNotification
    saveFailedReportAttempt
  dsimp only
  simp only [Bool.not_false, Bool.not_true, reduceIte]
  split <;> simp

/-- A successful generation presupposes sufficiency and a successful
narrative-service result. -/
lemma generate_success_imp (st : St) (u : Int) (ws : Ymd) (isRetry : Bool)
    (api : ApiResult) (now : Int) (botApp : Bool)
    (h : (generateWeeklyReport st u ws isRetry api now botApp).success = true) :
    (validateDataSufficiency (getWeekSessions st u ws)).1 = true ∧
    (generateReport api).1 = true := by
  cases hb : (validateDataSufficiency (getWeekSessions st u ws)).1 with
  | false =>
    have hfalse : (generateWeeklyReport st u ws isRetry api now botApp).success = false := by
      unfold generateWeeklyReport
      dsimp only
      rw [hb]
      rfl
    rw [hfalse] at h
    simp at h
  | true =>
    cases hg : (generateReport api).1 with
    | false =>
      have hfalse : (generateWeeklyReport st u ws isRetry api now botApp).success = false := by
        unfold generateWeeklyReport
        dsimp only
        rw [hb, hg]
        simp only [Bool.not_true, Bool.not_false, Bool.false_eq_true, if_false, if_true]
        split <;> rfl
      rw [hfalse] at h
      simp at h
    | true => exact ⟨rfl, rfl⟩

/-- The success path: the report is saved under the week key and the
ledger cleared for `(user, week_start)`. -/
lemma generate_success_eq (st : St) (u : Int) (ws : Ymd) (isRetry : Bool)
    (api : ApiResult) (now : Int) (botApp : Bool)
    (hv : (validateDataSufficiency (getWeekSessions st u ws)).1 = true)
    (hg : (generateReport api).1 = true) :
    generateWeeklyReport st u ws isRetry api now botApp =
      ⟨true, (generateReport api).2.1,
        clearFailedReportAttempts
          (saveWeeklyReport st u ws (generateReport api).2.1
            (formatSessionData (getWeekSessions st u ws))
            (validateDataSufficiency (getWeekSessions st u ws)).2.1
            (generateReport api).2.2.modelUsed now) u ws,
        [], [], 0⟩ := by
  have h1 : (!(validateDataSufficiency (getWeekSessions st u ws)).1) = false := by
    rw [hv]; rfl
  have h2 : (!(generateReport api).1) = false := by rw [hg]; rfl
  unfold generateWeeklyReport
  dsimp only
  rw [h1, h2]
  rfl

/-- Claim C5: a non-retry generation failure appends exactly one failure
record with `retry_scheduled_at = now + 2 days`, sends the user exactly
one "we'll retry" message, and forwards exactly one issue to the admin
escalation queue; a retry failure appends nothing, notifies nobody, and
enqueues nothing. -/
theorem generate_failure_retry_discipline (st : St) (u : Int) (ws : Ymd)
    (api : ApiResult) (now : Int)
    (hsuff : (validateDataSufficiency (getWeekSessions st u ws)).1 = true)
    (hfail : (generateReport api).1 = false) :
    (generateWeeklyReport st u ws false api now true).success = false ∧
    (generateWeeklyReport st u ws false api now true).state.failedReports =
      st.failedReports ++
        [⟨u, ws, (generateReport api).2.1, (generateReport api).2.2.modelUsed,
          some (now + 2 * 86400), now⟩] ∧
    (generateWeeklyReport st u ws false api now true).userMsgs =
      [UserMsg.retryScheduled u ws] ∧
    (generateWeeklyReport st u ws false api now true).enqueued =
      [⟨"llm_failure", some u,
        "Model: " ++ (generateReport api).2.2.modelUsed ++ ", Error: "
          ++ ((generateReport api).2.2.errorType.getD "unknown" ++ ": "
            ++ (generateReport api).2.1), dayOf now⟩] ∧
    (∀ b : Bool,
      (generateWeeklyReport st u ws true api now b).state.failedReports = st.failedReports ∧
      (generateWeeklyReport st u ws true api now b).userMsgs = [] ∧
      (generateWeeklyReport st u ws true api now b).enqueued = []) := by
  obtain ⟨hA, hB, hC, hD⟩ := generate_failure_path st u ws api now hsuff hfail
  refine ⟨hA, hB, hC, hD, ?_⟩
  intro b
  have h1 : (!(validateDataSufficiency (getWeekSessions st u ws)).1) = false := by
    rw [hsuff]; rfl
  have h2 : (!(generateReport api).1) = true := by rw [hfail]; rfl
  unfold generateWeeklyReport
  dsimp only
  rw [h1, h2]
  exact ⟨rfl, rfl, rfl⟩

/-- Witness for C5: three session days in the week of 2025-01-06 and a
timeout outcome — the non-retry call sends one "we'll retry" message and
appends the scheduled record; the retry call changes no ledger state. -/
theorem generate_failure_retry_discipline_witness :
    (generateWeeklyReport demoStore 7 wk1 false (.timeout "t") 1000 true).userMsgs =
      [UserMsg.retryScheduled 7 wk1] ∧
    (generateWeeklyReport demoStore 7 wk1 false (.timeout "t") 1000 true).state.failedReports =
      demoStore.failedReports ++
        [⟨7, wk1, (generateReport (.timeout "t")).2.1,
          (generateReport (.timeout "t")).2.2.modelUsed, some (1000 + 2 * 86400), 1000⟩] ∧
    (generateWeeklyReport demoStore 7 wk1 true (.timeout "t") 1000 true).userMsgs = [] :=
  ⟨(generate_failure_retry_discipline demoStore 7 wk1 (.timeout "t") 1000
      (by decide) (by decide)).2.2.1,
   (generate_failure_retry_discipline demoStore 7 wk1 (.timeout "t") 1000
      (by decide) (by decide)).2.1,
   ((generate_failure_retry_discipline demoStore 7 wk1 (.timeout "t") 1000
      (by decide) (by decide)).2.2.2.2 true).2.1⟩

/-- Claim C7: empty or under-50-character (stripped) narrative output is
classified as the `insufficient_content` failure — never success — and
on a non-retry invocation it takes the standard failure path: a failure
record is appended with the retry scheduled 2 days out. -/
theorem short_content_is_failure (content : String)
    (h : content = "" ∨ (pyStrip content).length < 50) :
    (generateReport (ApiResult.ok content)).1 = false ∧
    (generateReport (ApiResult.ok content)).2.2.errorType = some "insufficient_content" ∧
    ∀ (st : St) (u : Int) (ws : Ymd) (now : Int),
      (validateDataSufficiency (getWeekSessions st u ws)).1 = true →
      ((generateWeeklyReport st u ws false (.ok content) now true).success = false ∧
       (generateWeeklyReport st u ws false (.ok content) now true).state.failedReports =
         st.failedReports ++
           [⟨u, ws, "Generated report was too short or empty.", aiModel,
             some (now + 2 * 86400), now⟩]) := by
  have hc : (content == "" || decide ((pyStrip content).length < 50)) = true := by
    rcases h with h | h
    · subst h; simp
    · simp [h]
  have hgen : generateReport (.ok content) =
      (false, "Generated report was too short or empty.",
        ⟨aiModel, some "insufficient_content", none⟩) := by
    unfold generateReport
    simp only [hc, if_true]
  refine ⟨by rw [hgen], by rw [hgen], ?_⟩
  intro st u ws now hsuff
  have hp := generate_failure_path st u ws (.ok content) now hsuff (by rw [hgen])
  refine ⟨hp.1, ?_⟩
  rw [hp.2.1]
  simp [hgen]

/-- Witness for C7: a 5-character response is rejected as
`insufficient_content` and, with sufficient week data, appends the
scheduled failure record. -/
theorem short_content_is_failure_witness :
    (generateReport (ApiResult.ok "short")).2.2.errorType = some "insufficient_content" ∧
    (generateWeeklyReport demoStore 7 wk1 false (.ok "short") 1000 true).state.failedReports =
      demoStore.failedReports ++
        [⟨7, wk1, "Generated report was too short or empty.", aiModel,
          some (1000 + 2 * 86400), 1000⟩] :=
  ⟨(short_content_is_failure "short" (by decide)).2.1,
   ((short_content_is_failure "short" (by decide)).2.2 demoStore 7 wk1 1000 (by decide)).2⟩

/-- Claim C6: whenever `generate_weekly_report` succeeds — after any
number of prior failure records for `(user, week_start)` — the new state
stores the generated report under the week key (exactly one record for
that key, overwriting any previous one) and holds zero failure records
for `(user, week_start)`. -/
theorem generate_success_persists_and_clears (st : St) (u : Int) (ws : Ymd)
    (isRetry : Bool) (api : ApiResult) (now : Int) (botApp : Bool)
    (h : (generateWeeklyReport st u ws isRetry api now botApp).success = true) :
    ((getWeeklyReport (generateWeeklyReport st u ws isRetry api now botApp).state u ws).map
        (fun e => e.reportContent) =
      some (generateWeeklyReport st u ws isRetry api now botApp).payload) ∧
    ((getWeeklyReport (generateWeeklyReport st u ws isRetry api now botApp).state u ws).map
        (fun e => e.weekStart) = some ws) ∧
    ((generateWeeklyReport st u ws isRetry api now botApp).state.reports.filter
        (fun r => r.1 == u && r.2.1 == weekKey ws)).length = 1 ∧
    (generateWeeklyReport st u ws isRetry api now botApp).state.failedReports.filter
        (fun f => f.userId == u && f.weekStart == ws) = [] := by
  obtain ⟨hv, hg⟩ := generate_success_imp st u ws isRetry api now botApp h
  rw [generate_success_eq st u ws isRetry api now botApp hv hg]
  dsimp only
  unfold clearFailedReportAttempts saveWeeklyReport getWeeklyReport
  dsimp only
  rw [List.filter_append, filter_not_filter_self]
  refine ⟨?_, ?_, ?_, filter_not_filter_self _ _⟩ <;> simp

/-- Witness for C6: a successful 60-character generation for user 7 and
week 2025-01-06 leaves one stored report for the key and an empty
failure ledger for that key. -/
theorem generate_success_persists_and_clears_witness :
    ((generateWeeklyReport threeSessionFailStore 7 wk1 true (.ok demoContent) 1000 true).state.reports.filter
        (fun r => r.1 == 7 && r.2.1 == weekKey wk1)).length = 1 ∧
    (generateWeeklyReport threeSessionFailStore 7 wk1 true (.ok demoContent) 1000 true).state.failedReports.filter
        (fun f => f.userId == 7 && f.weekStart == wk1) = [] :=
  ⟨(generate_success_persists_and_clears threeSessionFailStore 7 wk1 true (.ok demoContent)
      1000 true (by decide)).2.2.1,
   (generate_success_persists_and_clears threeSessionFailStore 7 wk1 true (.ok demoContent)
      1000 true (by decide)).2.2.2⟩

/-! ### C2, C3 -/

/-- In the JSON handler's pending list, every entry for `(u, w)` carries
at least the due-record count as its attempts (it counts ALL records of
the key). -/
lemma json_pending_attempts_ge (recs : List FailureRecord) (now : Int) (u : Int) (w : Ymd)
    (p : PendingRetry) (hp : p ∈ getPendingJson recs now)
    (hu : p.userId = u) (hw : p.weekStart = w) :
    dueCount recs now u w ≤ p.attempts := by
  obtain ⟨f, hf, rfl⟩ := List.mem_map.mp hp
  dsimp at hu hw ⊢
  rw [hu, hw]
  unfold dueCount
  rw [← List.countP_eq_length_filter, ← List.countP_eq_length_filter]
  apply List.countP_mono_left
  intro x _ hx
  rw [Bool.and_eq_true] at hx
  exact hx.1

/-- In the SQLite handler's pending list, every entry for `(u, w)`
carries exactly the due-record count as its attempts. -/
lemma sqlite_pending_attempts_eq (recs : List FailureRecord) (now : Int) (u : Int) (w : Ymd)
    (p : PendingRetry) (hp : p ∈ getPendingSqlite recs now)
    (hu : p.userId = u) (hw : p.weekStart = w) :
    p.attempts = dueCount recs now u w := by
  obtain ⟨k, hk, rfl⟩ := List.mem_map.mp hp
  dsimp at hu hw ⊢
  rw [hu, hw]
  unfold dueCount
  rw [List.filter_filter]

/-- A message produced inside `generate_weekly_report` is never the
terminal max-retries notice. -/
lemma generate_no_maxRetries (st : St) (u' : Int) (ws' : Ymd) (ir : Bool)
    (api : ApiResult) (now : Int) (b : Bool) (u : Int) (w : Ymd) :
    (generateWeeklyReport st u' ws' ir api now b).userMsgs.count
      (UserMsg.maxRetries u w) = 0 := by
  unfold generateWeeklyReport handleReportGenerationFailure
  dsimp only
  split
  · rfl
  · split
    · split
      · split <;> simp
      · rfl
    · rfl

/-- The sweep loop never touches a key whose every pending entry is at
the attempt cap: it is not retried and gets no terminal notice. -/
lemma sweepGo_skips_capped (api : Int → Ymd → ApiResult) (now : Int) (botApp : Bool)
    (u : Int) (w : Ymd) :
    ∀ (pending : List PendingRetry) (st : St),
      (∀ p ∈ pending, p.userId = u → p.weekStart = w → 3 ≤ p.attempts) →
      (u, w) ∉ (sweepGo api now botApp pending st).invoked ∧
      (sweepGo api now botApp pending st).userMsgs.count (UserMsg.maxRetries u w) = 0
  | [], st, _ => by simp [sweepGo]
  | p :: rest, st, hall => by
    have htail : ∀ q ∈ rest, q.userId = u → q.weekStart = w → 3 ≤ q.attempts :=
      fun q hq => hall q (List.mem_cons_of_mem _ hq)
    unfold sweepGo
    by_cases hc : 3 ≤ p.attempts
    · rw [if_pos hc]
      exact sweepGo_skips_capped api now botApp u w rest st htail
    · rw [if_neg hc]
      have hkey : ¬(p.userId = u ∧ p.weekStart = w) := by
        rintro ⟨h1, h2⟩
        exact hc (hall p (List.mem_cons_self _ _) h1 h2)
      have IH := sweepGo_skips_capped api now botApp u w rest
        (generateWeeklyReport st p.userId p.weekStart true (api p.userId p.weekStart)
          now botApp).state htail
      dsimp only
      constructor
      · intro hmem
        rcases List.mem_cons.mp hmem with heq | hmem'
        · exact hkey ⟨(Prod.ext_iff.mp heq).1.symm, (Prod.ext_iff.mp heq).2.symm⟩
        · exact IH.1 hmem'
      · rw [List.count_append, List.count_append]
        rw [generate_no_maxRetries, IH.2]
        have hhere :
            (if (generateWeeklyReport st p.userId p.weekStart true (api p.userId p.weekStart)
                  now botApp).success = true then
               if botApp = true then [UserMsg.retrySuccess p.userId p.weekStart] else []
             else
               if 2 ≤ p.attempts then
                 if botApp = true then [UserMsg.maxRetries p.userId p.weekStart] else []
               else []).count (UserMsg.maxRetries u w) = 0 := by
          have hne : (UserMsg.maxRetries p.userId p.weekStart == UserMsg.maxRetries u w) = false := by
            simp only [beq_eq_false_iff_ne, ne_eq, UserMsg.maxRetries.injEq, not_and]
            intro h1 h2
            exact hkey ⟨h1, h2⟩
          split
          · split <;> simp
          · split
            · split
              · simp [List.count_cons, hne]
              · rfl
            · rfl
        rw [hhere]

/-- Claim C2 (amended): when some `(user, week_start)` has 3 or more due
FailureRecords, `process_pending_retries` does not invoke
`generate_weekly_report` for that key and emits NO terminal max-retries
notice for it during the sweep (the group is skipped with only a log;
the terminal notice is sent only when a retry attempted with exactly 2
recorded attempts fails) — in both storage backends. -/
theorem capped_retry_group_skipped_silently (b : Backend) (st : St) (now : Int)
    (api : Int → Ymd → ApiResult) (botApp : Bool) (u : Int) (w : Ymd)
    (h3 : 3 ≤ dueCount st.failedReports now u w) :
    (u, w) ∉ (processPendingRetries b st now api botApp).invoked ∧
    (processPendingRetries b st now api botApp).userMsgs.count
      (UserMsg.maxRetries u w) = 0 := by
  unfold processPendingRetries
  apply sweepGo_skips_capped
  intro p hp hu hw
  cases b with
  | json =>
    exact le_trans h3 (json_pending_attempts_ge st.failedReports now u w p hp hu hw)
  | sqlite =>
    rw [sqlite_pending_attempts_eq st.failedReports now u w p hp hu hw]
    exact h3

/-- Counterexample for C2: with exactly three due FailureRecords for
(7, 2025-01-06) the sweep invokes no generation for the key — but it
also emits ZERO terminal notices, not the "exactly once" the claim
states. -/
theorem capped_retry_group_no_notice_counterexample :
    3 ≤ dueCount threeFailureStore.failedReports 100 7 wk1 ∧
    (processPendingRetries .json threeFailureStore 100 (fun _ _ => .timeout "t") true).invoked
      = [] ∧
    (processPendingRetries .json threeFailureStore 100
        (fun _ _ => .timeout "t") true).userMsgs.count (UserMsg.maxRetries 7 wk1) = 0 ∧
    ¬((processPendingRetries .json threeFailureStore 100
        (fun _ _ => .timeout "t") true).userMsgs.count (UserMsg.maxRetries 7 wk1) = 1) := by
  decide

/-- Witness for C2: the SQLite-backed sweep over the same three-failure
ledger neither retries the key nor notifies. -/
theorem capped_retry_group_skipped_silently_witness :
    (7, wk1) ∉ (processPendingRetries .sqlite threeFailureStore 100
        (fun _ _ => .timeout "t") true).invoked ∧
    (processPendingRetries .sqlite threeFailureStore 100
        (fun _ _ => .timeout "t") true).userMsgs.count (UserMsg.maxRetries 7 wk1) = 0 :=
  capped_retry_group_skipped_silently .sqlite threeFailureStore 100
    (fun _ _ => .timeout "t") true 7 wk1 (by decide)

/-- `countP` over a deduplicated list is 1 for a predicate recognising
exactly one present element. -/
lemma countP_dedup_singleton {α : Type} [DecidableEq α] (p : α → Bool) (a : α)
    (hp : ∀ x, p x = true ↔ x = a) :
    ∀ l : List α, a ∈ l → l.dedup.countP p = 1 := by
  intro l
  induction l with
  | nil => intro h; cases h
  | cons b l ih =>
    intro h
    by_cases hb : b ∈ l
    · rw [List.dedup_cons_of_mem hb]
      rcases List.mem_cons.mp h with heq | h'
      · exact ih (heq.symm ▸ hb)
      · exact ih h'
    · rw [List.dedup_cons_of_not_mem hb, List.countP_cons]
      rcases List.mem_cons.mp h with heq | h'
      · have hz : (List.dedup l).countP p = 0 := by
          apply List.countP_eq_zero.mpr
          intro x hx hpx
          apply hb
          rw [← heq, ← (hp x).mp hpx]
          exact List.mem_dedup.mp hx
        rw [hz, (hp b).mpr heq.symm]
        rfl
      · have hpb : p b = false := by
          cases hfb : p b with
          | false => rfl
          | true =>
            exfalso
            apply hb
            rw [(hp b).mp hfb]
            exact h'
        rw [ih h', hpb]
        rfl

/-- Claim C3 (amended): the SQLite handler returns each due
`(user, week_start)` exactly once with `attempts` equal to the number of
DUE FailureRecords of that key, while the JSON handler returns such a
key once per due FailureRecord, each entry counting ALL of that user's
FailureRecords for the week. -/
theorem pending_retries_grouping :
    (∀ (recs : List FailureRecord) (now : Int) (u : Int) (w : Ymd),
      1 ≤ dueCount recs now u w →
        ((getPendingReportRetries .sqlite recs now).countP
            (fun p => p.userId == u && p.weekStart == w) = 1 ∧
         ∀ p ∈ getPendingReportRetries .sqlite recs now,
           p.userId = u → p.weekStart = w → p.attempts = dueCount recs now u w)) ∧
    (∀ (recs : List FailureRecord) (now : Int) (u : Int) (w : Ymd),
      ((getPendingReportRetries .json recs now).countP
          (fun p => p.userId == u && p.weekStart == w) = dueCount recs now u w) ∧
      ∀ p ∈ getPendingReportRetries .json recs now,
        p.userId = u → p.weekStart = w → p.attempts = totalCount recs u w) := by
  constructor
  · intro recs now u w h1
    constructor
    · unfold getPendingReportRetries getPendingSqlite
      dsimp only
      rw [List.countP_map]
      apply countP_dedup_singleton _ (u, w)
      · rintro ⟨x1, x2⟩
        simp [Function.comp, Prod.ext_iff]
      · have hpos : 0 < dueCount recs now u w := h1
        unfold dueCount at hpos
        obtain ⟨f, hf⟩ := List.exists_mem_of_length_pos hpos
        have hf' := List.mem_filter.mp hf
        simp only [Bool.and_eq_true, beq_iff_eq] at hf'
        apply List.mem_map.mpr
        refine ⟨f, List.mem_filter.mpr ⟨hf'.1, ?_⟩, ?_⟩
        · exact hf'.2.2
        · exact Prod.ext hf'.2.1.1 hf'.2.1.2
    · exact fun p hp => sqlite_pending_attempts_eq recs now u w p hp
  · intro recs now u w
    constructor
    · unfold getPendingReportRetries getPendingJson dueCount
      rw [List.countP_map, List.countP_filter, ← List.countP_eq_length_filter]
      rfl
    · intro p hp hu hw
      obtain ⟨f, hf, rfl⟩ := List.mem_map.mp hp
      dsimp at hu hw ⊢
      rw [hu, hw]
      rfl

/-- Counterexample for C3: a ledger with TWO due FailureRecords for
(7, 2025-01-06) makes the JSON handler list the key twice, not exactly
once as claimed. -/
theorem pending_retries_json_duplicate_counterexample :
    1 ≤ dueCount twoFailures 100 7 wk1 ∧
    (getPendingReportRetries .json twoFailures 100).countP
        (fun p => p.userId == 7 && p.weekStart == wk1) = 2 ∧
    ¬((getPendingReportRetries .json twoFailures 100).countP
        (fun p => p.userId == 7 && p.weekStart == wk1) = 1) := by
  decide

/-- Witness for C3: the SQLite handler lists the doubly-failed key
exactly once. -/
theorem pending_retries_grouping_witness :
    (getPendingReportRetries .sqlite twoFailures 100).countP
        (fun p => p.userId == 7 && p.weekStart == wk1) = 1 :=
  (pending_retries_grouping.1 twoFailures 100 7 wk1 (by decide)).1

end Moody
